import Mathlib

/-!
Shallow embedding of `src/nano-navigator/service_worker.js` (the Nano-Navigator
Chrome extension's background service worker).  The embedding models:

* the menu-id and API constants (lines 4-12 of the source);
* the tag-stripping sanitization `text.replace(/<[^>]*>?/gm, '')` (line 159);
* the outbound request payload construction (lines 161-168);
* the per-attempt response processing of `executeCloudAiTask` (lines 175-193);
* the retry loop with exponential backoff (lines 173-201);
* the context-menu click routing `chrome.contextMenus.onClicked` (lines 70-114)
  and the direct task dispatch `runAiTask` (lines 119-152);
* the `runCustomPrompt` / `runTranslation` message handlers (lines 205-244);
* the submit actions of the page-injected parameter modals (lines 385-395 and
  444-458).

Network effects are modelled by an oracle `fetch : Nat → FetchOutcome` giving
the outcome of the HTTP attempt with each attempt index, and each entry point
returns a trace recording the outcome, the number of attempts actually issued
and the backoff delays slept between attempts.
-/

namespace NanoNavigator

/-- Menu-item id constant (service_worker.js line 4). -/
def SUBMENU_SUMMARIZE_ID : String := "NANO_SUMMARIZE"

/-- Menu-item id constant (line 5). -/
def SUBMENU_REWRITE_ID : String := "NANO_REWRITE"

/-- Menu-item id constant (line 6). -/
def SUBMENU_PROOFREAD_ID : String := "NANO_PROOFREAD"

/-- Menu-item id constant (line 7). -/
def SUBMENU_CUSTOM_PROMPT_ID : String := "NANO_CUSTOM"

/-- Menu-item id constant (line 8). -/
def SUBMENU_TRANSLATE_ID : String := "NANO_TRANSLATE"

/-- Menu-item id constant (line 9). -/
def ACTION_SET_API_KEY : String := "SET_API_KEY"

/-- Model name constant (line 11). -/
def GEMINI_MODEL : String := "gemini-2.5-flash-preview-05-20"

/-- Endpoint base URL constant (line 12). -/
def API_URL_BASE : String := "https://generativelanguage.googleapis.com/v1beta/models/"

/-- The request URL built at line 170:
`${API_URL_BASE}${GEMINI_MODEL}:generateContent?key=${GEMINI_API_KEY}`. -/
def apiUrl (apiKey : String) : String :=
  API_URL_BASE ++ GEMINI_MODEL ++ ":generateContent?key=" ++ apiKey

/-! ## Sanitization (line 159)

`const plainText = text.replace(/<[^>]*>?/gm, '');`

The regex matches a `<`, then a greedy run of non-`>` characters (a negated
character class, so it also matches newlines; the `m` flag only affects `^`/`$`
and is inert here), then an optional `>`.  Every match is removed.  Since every
match begins with `<`, global replacement is equivalent to the two-state scan
below: outside a match characters are copied; a `<` starts a match which
swallows everything up to and including the next `>` (or to the end of the
input when no `>` follows). -/

/-- Two-state scan equivalent to globally deleting matches of `<[^>]*>?`.
`inTag = true` means we are inside a match begun by an earlier `<`. -/
def sanitizeAux : Bool → List Char → List Char
  | _, [] => []
  | false, c :: rest =>
      if c = '<' then sanitizeAux true rest else c :: sanitizeAux false rest
  | true, c :: rest =>
      if c = '>' then sanitizeAux false rest else sanitizeAux true rest

/-- The sanitization step of `executeCloudAiTask` (line 159). -/
def sanitizeText (s : String) : String := ⟨sanitizeAux false s.data⟩

/-! ## Outbound payload (lines 161-168) -/

/-- A `{ text: ... }` part of the request payload. -/
structure TextPart where
  text : String
deriving DecidableEq, Repr

/-- A `{ parts: [...] }` content item of the request payload. -/
structure ContentItem where
  parts : List TextPart
deriving DecidableEq, Repr

/-- The `generationConfig` object (lines 165-167). -/
structure GenerationConfig where
  temperature : ℚ
deriving DecidableEq, Repr

/-- The JSON request body built at lines 161-168. -/
structure Payload where
  contents : List ContentItem
  systemInstruction : ContentItem
  generationConfig : GenerationConfig
deriving DecidableEq, Repr

/-- Payload construction (lines 159-168): the user-level content is the string
`Original Text: ${plainText}` with `plainText` the sanitized input, the system
instruction carries the prompt, and the temperature is the literal `0.2`. -/
def mkPayload (text systemPrompt : String) : Payload :=
  { contents := [⟨[⟨"Original Text: " ++ sanitizeText text⟩]⟩]
    systemInstruction := ⟨[⟨systemPrompt⟩]⟩
    generationConfig := ⟨0.2⟩ }

/-! ## Response model and per-attempt processing (lines 175-193) -/

/-- One element of the response's `candidates[i].content.parts` array; its
`text` field may be absent (`none`). -/
structure RespPart where
  text : Option String
deriving DecidableEq, Repr

/-- The `content` object of a response candidate. -/
structure RespContent where
  parts : List RespPart
deriving DecidableEq, Repr

/-- One element of the response's `candidates` array; `content` may be
absent. -/
structure Candidate where
  content : Option RespContent
deriving DecidableEq, Repr

/-- The parsed JSON body of a 2xx response: the `candidates` array (absent
modelled as `[]`). -/
structure GeminiResponse where
  candidates : List Candidate
deriving DecidableEq, Repr

/-- The optional-chaining lookup at line 187:
`result.candidates?.[0]?.content?.parts?.[0]?.text`. -/
def generatedTextOf (r : GeminiResponse) : Option String :=
  match r.candidates with
  | [] => none
  | c :: _ =>
      match c.content with
      | none => none
      | some ct =>
          match ct.parts with
          | [] => none
          | p :: _ => p.text

/-- What a single `fetch` of the endpoint yields: either the promise rejects
(network error), or a response arrives with an HTTP status, the raw body text
(read by `response.text()` on the error path) and the parsed JSON body
(`none` when `response.json()` would reject). -/
inductive FetchOutcome where
  | throws (msg : String)
  | response (status : Nat) (bodyText : String) (json : Option GeminiResponse)
deriving DecidableEq, Repr

/-- `response.ok`: the HTTP status lies in the 2xx range 200..299. -/
def respOk (status : Nat) : Bool := 200 ≤ status && status ≤ 299

/-- The errors thrown inside one iteration of the retry loop. -/
inductive JsError where
  /-- Line 183: `HTTP error ${status}: ${errorText}` on a non-ok response. -/
  | httpError (status : Nat) (bodyText : String)
  /-- Line 192: `Received an empty or malformed response from the API.`,
  thrown when the generated text is absent or the empty string. -/
  | malformedResponse
  /-- `response.json()` rejected on a 2xx response with an unparsable body. -/
  | jsonError (msg : String)
  /-- `fetch` itself rejected (network failure). -/
  | thrown (msg : String)
deriving DecidableEq, Repr

/-- The body of one iteration of the retry loop (lines 175-193): fetch, check
`response.ok`, parse, extract the generated text and test its truthiness
(`if (generatedText)` — an absent field and the empty string are both falsy). -/
def processAttempt : FetchOutcome → Except JsError String
  | .throws msg => .error (.thrown msg)
  | .response status bodyText json =>
      if respOk status then
        match json with
        | none => .error (.jsonError "Unexpected token in JSON")
        | some r =>
            match generatedTextOf r with
            | some t => if t = "" then .error .malformedResponse else .ok t
            | none => .error .malformedResponse
      else .error (.httpError status bodyText)

/-! ## Retry loop (lines 173-201) -/

/-- How `executeCloudAiTask` finishes: returning the generated text, throwing
the error of the final attempt (line 196), or the fall-through throw after the
loop, `Maximum retry attempts reached.` (line 201). -/
inductive InvokeOutcome where
  | success (text : String)
  | failure (e : JsError)
  | maxRetriesReached
deriving DecidableEq, Repr

/-- Trace of the retry loop: how it ended, how many fetch attempts were
issued, and the backoff delays (ms) slept between attempts. -/
structure LoopTrace where
  outcome : InvokeOutcome
  attempts : Nat
  delays : List Nat
deriving DecidableEq, Repr

/-- The loop `for (let attempt = 0; attempt < 3; attempt++)` (lines 173-200),
with the guard `attempt < 3` carried as `remaining = 3 - attempt`: on success
return the text; on error rethrow when `attempt === 2` (line 196), otherwise
sleep `1000 * Math.pow(2, attempt)` ms (line 198) and continue.  When the
guard fails the code falls through to the throw at line 201. -/
def execLoopAux (fetch : Nat → FetchOutcome) : Nat → Nat → LoopTrace
  | _, 0 => ⟨.maxRetriesReached, 0, []⟩
  | attempt, remaining + 1 =>
      match processAttempt (fetch attempt) with
      | .ok t => ⟨.success t, 1, []⟩
      | .error e =>
          if attempt = 2 then ⟨.failure e, 1, []⟩
          else
            let rest := execLoopAux fetch (attempt + 1) remaining
            ⟨rest.outcome, rest.attempts + 1, 1000 * 2 ^ attempt :: rest.delays⟩

/-- Full trace of one `executeCloudAiTask` invocation (lines 158-202): the
payload and URL it builds, and the retry-loop behaviour. -/
structure InvokeTrace where
  payload : Payload
  url : String
  outcome : InvokeOutcome
  attempts : Nat
  delays : List Nat
deriving DecidableEq, Repr

/-- `executeCloudAiTask(text, systemPrompt)` (lines 158-202), with the
module-level `GEMINI_API_KEY` passed explicitly and the network modelled by
the per-attempt oracle `fetch`.  Note: the function reads the credential only
to build the URL; it performs no emptiness check on it. -/
def executeCloudAiTask (text systemPrompt apiKey : String)
    (fetch : Nat → FetchOutcome) : InvokeTrace :=
  let payload := mkPayload text systemPrompt
  let url := apiUrl apiKey
  let lp := execLoopAux fetch 0 3
  ⟨payload, url, lp.outcome, lp.attempts, lp.delays⟩

/-! ## Instruction templates (lines 128, 133, 138, 228) -/

/-- The Summarize system prompt (line 128). -/
def summarizeTemplate : String :=
  "You are an expert summarizer. Provide the key points from the context as a short, concise, bulleted list using markdown format."

/-- The Rewrite system prompt (line 133). -/
def rewriteTemplate : String :=
  "Rewrite the following text to simplify it for a 5th-grade reading level. Keep the length similar."

/-- The Proofread system prompt (line 138). -/
def proofreadTemplate : String :=
  "Proofread the text provided. First, output the fully corrected text. Second, list all significant changes made (grammar, spelling, syntax) in a bulleted list format."

/-- The Translate system prompt built at line 228 from the caller-supplied
target language. -/
def translateTemplate (targetLanguage : String) : String :=
  "You are an expert translator. Translate the following text strictly into " ++
    targetLanguage ++ " and provide only the translated text as the output."

/-! ## Direct task dispatch `runAiTask` (lines 119-152) -/

/-- The `switch (menuItemId)` of `runAiTask` (lines 126-141): the system
prompt and result-modal title for each direct action; `none` when no case
matches (then `result`/`title` stay `undefined`). -/
def runAiTaskCase (menuItemId : String) : Option (String × String) :=
  if menuItemId = SUBMENU_SUMMARIZE_ID then
    some (summarizeTemplate, "AI Summary (Key Points)")
  else if menuItemId = SUBMENU_REWRITE_ID then
    some (rewriteTemplate, "AI Rewrite (Simplified)")
  else if menuItemId = SUBMENU_PROOFREAD_ID then
    some (proofreadTemplate, "Proofread Corrections")
  else none

/-- `runAiTask(menuItemId, selectedText, tabId)` (lines 119-152): selects the
fixed system prompt for the action and runs `executeCloudAiTask` on the
selected text with it; yields the invocation trace and the modal title. -/
def runAiTask (menuItemId selectedText apiKey : String)
    (fetch : Nat → FetchOutcome) : Option (InvokeTrace × String) :=
  (runAiTaskCase menuItemId).map fun c =>
    (executeCloudAiTask selectedText c.1 apiKey fetch, c.2)

/-! ## Context-menu click routing (lines 70-114) -/

/-- What the `chrome.contextMenus.onClicked` listener does with a click. -/
inductive ClickOutcome where
  /-- Line 73-77: inject the API-key modal. -/
  | apiKeyModalShown
  /-- Line 81-83: no selection, no tab, or the parent group id — return. -/
  | ignored
  /-- Lines 85-88: empty `GEMINI_API_KEY` — show the
  `Configuration Required` message and return without running a task. -/
  | configRequired
  /-- Lines 92-100: inject the custom-prompt input modal; no task yet. -/
  | promptModalShown
  /-- Lines 102-110: inject the translation input modal; no task yet. -/
  | translationModalShown
  /-- Line 113: `runAiTask` ran with the given trace/title. -/
  | taskRan (t : Option (InvokeTrace × String))
deriving DecidableEq, Repr

/-- The `chrome.contextMenus.onClicked` listener (lines 70-114), with
`info.selectionText` as `selectedText` (JS falsy modelled as the empty
string), a valid `tab.id` assumed, and the module-level key passed in. -/
def onContextMenuClicked (menuItemId selectedText apiKey : String)
    (fetch : Nat → FetchOutcome) : ClickOutcome :=
  if menuItemId = ACTION_SET_API_KEY then .apiKeyModalShown
  else if selectedText = "" ∨ menuItemId = "AI_TASKS_GROUP" then .ignored
  else if apiKey = "" then .configRequired
  else if menuItemId = SUBMENU_CUSTOM_PROMPT_ID then .promptModalShown
  else if menuItemId = SUBMENU_TRANSLATE_ID then .translationModalShown
  else .taskRan (runAiTask menuItemId selectedText apiKey fetch)

/-! ## Message handlers for Custom Prompt / Translate (lines 205-244) -/

/-- The `runCustomPrompt` branch of the `chrome.runtime.onMessage` listener
(lines 206-222): it calls `executeCloudAiTask(request.selectedText,
request.customPrompt)` directly — no credential check, no emptiness check on
the prompt. -/
def handleRunCustomPrompt (selectedText customPrompt apiKey : String)
    (fetch : Nat → FetchOutcome) : InvokeTrace :=
  executeCloudAiTask selectedText customPrompt apiKey fetch

/-- The `runTranslation` branch of the `chrome.runtime.onMessage` listener
(lines 225-243): builds the translate prompt from `request.targetLanguage`
and calls `executeCloudAiTask` — no credential check, no emptiness check on
the language. -/
def handleRunTranslation (selectedText targetLanguage apiKey : String)
    (fetch : Nat → FetchOutcome) : InvokeTrace :=
  executeCloudAiTask selectedText (translateTemplate targetLanguage) apiKey fetch

/-! ## Page-side modal submit actions (lines 385-395, 444-458) -/

/-- JS `String.prototype.trim()`: whitespace removed from both ends
(modelled with `Char.isWhitespace`). -/
def jsTrim (s : String) : String :=
  ⟨(((s.data.dropWhile Char.isWhitespace).reverse.dropWhile
      Char.isWhitespace).reverse)⟩

/-- The submit handler of the custom-prompt modal (lines 385-395): trims the
input; when the result is non-empty (truthy), a `runCustomPrompt` message
with that value is sent (`some`), otherwise an alert is shown and nothing is
sent (`none`). -/
def promptModalSubmit (inputValue : String) : Option String :=
  let customPrompt := jsTrim inputValue
  if customPrompt = "" then none else some customPrompt

/-- The submit handler of the translation modal (lines 444-458): trims the
input; when the result is non-empty (truthy), a `runTranslation` message with
that target language is sent (`some`), otherwise an alert is shown and
nothing is sent (`none`). -/
def translationModalSubmit (inputValue : String) : Option String :=
  let targetLanguage := jsTrim inputValue
  if targetLanguage = "" then none else some targetLanguage

/-! ## Comparison definition and concrete network oracles -/

/-- Split a character list at newline characters (the newlines are not kept
in the pieces). -/
def splitLines : List Char → List (List Char)
  | [] => [[]]
  | c :: rest =>
      match splitLines rest with
      | [] => [[]]
      | l :: ls => if c = '\n' then [] :: l :: ls else (c :: l) :: ls

/-- Rejoin line pieces with newline characters. -/
def joinLines : List (List Char) → List Char
  | [] => []
  | [l] => l
  | l :: ls => l ++ '\n' :: joinLines ls

/-- The sanitizer as claim C9 words it (not the source's behaviour): the
pattern `<[^>]*>?` is removed per line, so a match may not cross a line
boundary and an unterminated `<` deletes only to the end of its own line.
Stated solely for comparison with `sanitizeText`, which embeds the source's
actual replacement (whose negated class `[^>]` also matches newlines). -/
def sanitizeLinewiseClaimed (s : String) : String :=
  ⟨joinLines ((splitLines s.data).map (sanitizeAux false))⟩

/-- Oracle: the fetch promise rejects on every attempt. -/
def alwaysThrowFetch : Nat → FetchOutcome := fun _ => .throws "network down"

/-- A well-formed 2xx response body whose generated text is `"out"`. -/
def demoResponse : GeminiResponse := ⟨[⟨some ⟨[⟨some "out"⟩]⟩⟩]⟩

/-- Oracle: every attempt returns 200 with a well-formed body. -/
def okFetch : Nat → FetchOutcome := fun _ => .response 200 "" (some demoResponse)

/-- Oracle: attempts 0 and 1 return 200 with an empty `candidates` array (a
malformed body), attempt 2 returns a well-formed 200. -/
def malformedTwiceThenOkFetch : Nat → FetchOutcome := fun n =>
  if n < 2 then .response 200 "{}" (some ⟨[]⟩) else .response 200 "" (some demoResponse)

/-- Oracle: attempts 0 and 1 reject at the network level, attempt 2 returns a
well-formed 200. -/
def failTwiceThenOkFetch : Nat → FetchOutcome := fun n =>
  if n < 2 then .throws "connection reset" else .response 200 "" (some demoResponse)

/-! ## Helper lemmas about the sanitizer and the retry loop -/

/-- Outside a tag, a prefix free of `<` is copied unchanged. -/
theorem sanitizeAux_false_append (l m : List Char) (hl : '<' ∉ l) :
    sanitizeAux false (l ++ m) = l ++ sanitizeAux false m := by
  induction l with
  | nil => rfl
  | cons c rest ih =>
      have hc : c ≠ '<' := fun h => hl (h ▸ List.mem_cons_self c rest)
      have hrest : '<' ∉ rest := fun h => hl (List.mem_cons_of_mem c h)
      simp [sanitizeAux, hc, ih hrest]

/-- Inside a tag, input free of `>` is swallowed entirely. -/
theorem sanitizeAux_true_no_gt (l : List Char) (hl : '>' ∉ l) :
    sanitizeAux true l = [] := by
  induction l with
  | nil => rfl
  | cons c rest ih =>
      have hc : c ≠ '>' := fun h => hl (h ▸ List.mem_cons_self c rest)
      have hrest : '>' ∉ rest := fun h => hl (List.mem_cons_of_mem c h)
      simp [sanitizeAux, hc, ih hrest]

/-- The loop issues at least one fetch attempt, whatever the oracle does. -/
theorem execLoopAux_attempts_pos (fetch : Nat → FetchOutcome) :
    1 ≤ (execLoopAux fetch 0 3).attempts := by
  cases h0 : processAttempt (fetch 0) with
  | ok t => simp [execLoopAux, h0]
  | error e => simp [execLoopAux, h0]

/-- A single attempt returns the generated text exactly when the response has
a 2xx status and the parsed body carries a non-empty text at
`candidates[0].content.parts[0].text`. -/
theorem processAttempt_ok_iff (o : FetchOutcome) (t : String) :
    processAttempt o = .ok t ↔
      ∃ status bodyText r, o = .response status bodyText (some r) ∧
        respOk status = true ∧ generatedTextOf r = some t ∧ t ≠ "" := by
  constructor
  · intro h
    cases o with
    | throws m => exact absurd h (by simp [processAttempt])
    | response status bodyText json =>
        by_cases hok : respOk status = true
        · cases json with
          | none => simp [processAttempt, hok] at h
          | some r =>
              cases hg : generatedTextOf r with
              | none => simp [processAttempt, hok, hg] at h
              | some t0 =>
                  by_cases ht : t0 = ""
                  · simp [processAttempt, hok, hg, ht] at h
                  · have heq : t0 = t := by
                      simpa [processAttempt, hok, hg, ht] using h
                    exact ⟨status, bodyText, r, rfl, hok, heq ▸ hg, heq ▸ ht⟩
        · simp [processAttempt, hok] at h
  · rintro ⟨status, bodyText, r, rfl, hok, hg, ht⟩
    simp [processAttempt, hok, hg, ht]

/-! ## Claim theorems -/

/-- C5: for every non-empty `sourceText`, the Summarize, Rewrite and
Proofread dispatches produce a query whose system instruction is that
action's fixed template — a constant, hence byte-for-byte identical across
all source texts — and the Proofread template asks for the corrected text
first and the bulleted list of changes second. -/
theorem claim_C5 (s apiKey : String) (fetch : Nat → FetchOutcome) (_hs : s ≠ "") :
    ((runAiTask SUBMENU_SUMMARIZE_ID s apiKey fetch).map
        fun p => p.1.payload.systemInstruction) = some ⟨[⟨summarizeTemplate⟩]⟩ ∧
    ((runAiTask SUBMENU_REWRITE_ID s apiKey fetch).map
        fun p => p.1.payload.systemInstruction) = some ⟨[⟨rewriteTemplate⟩]⟩ ∧
    ((runAiTask SUBMENU_PROOFREAD_ID s apiKey fetch).map
        fun p => p.1.payload.systemInstruction) = some ⟨[⟨proofreadTemplate⟩]⟩ ∧
    (∃ a b c, proofreadTemplate =
      a ++ "corrected text" ++ b ++ "bulleted list" ++ c) := by
  refine ⟨rfl, rfl, rfl,
    "Proofread the text provided. First, output the fully ",
    ". Second, list all significant changes made (grammar, spelling, syntax) in a ",
    " format.", ?_⟩
  decide

/-- Witness for C5 at the concrete source text `"hello"`. -/
theorem claim_C5_witness :
    ((runAiTask SUBMENU_SUMMARIZE_ID "hello" "k" okFetch).map
        fun p => p.1.payload.systemInstruction) = some ⟨[⟨summarizeTemplate⟩]⟩ :=
  (claim_C5 "hello" "k" okFetch (by decide)).1

/-- C6: the sanitization step strips markup tags — on
`"<b>hello</b> <i>world</i>"` it yields exactly `"hello world"` — and it is
applied to the source text before inclusion in the query content. -/
theorem claim_C6 (systemPrompt apiKey : String) (fetch : Nat → FetchOutcome) :
    sanitizeText "<b>hello</b> <i>world</i>" = "hello world" ∧
    (executeCloudAiTask "<b>hello</b> <i>world</i>" systemPrompt apiKey
        fetch).payload.contents =
      [⟨[⟨"Original Text: " ++ sanitizeText "<b>hello</b> <i>world</i>"⟩]⟩] :=
  ⟨by decide, rfl⟩

/-- C7 counterexample: the user-level content field is not the sanitized
source text itself — for source text `"hello"` it is
`"Original Text: hello"`, not `"hello"`. -/
theorem claim_C7_counterexample :
    (executeCloudAiTask "hello" summarizeTemplate "key" alwaysThrowFetch).payload.contents
      ≠ [⟨[⟨sanitizeText "hello"⟩]⟩] := by
  decide

/-- C7 amended: the outbound body places the instruction in the
system-instruction field and the sanitized source text prefixed with the
literal `"Original Text: "` in the user-level content field, with temperature
fixed at 0.2 for every action. -/
theorem claim_C7_amended (text systemPrompt apiKey : String)
    (fetch : Nat → FetchOutcome) :
    (executeCloudAiTask text systemPrompt apiKey fetch).payload =
      ⟨[⟨[⟨"Original Text: " ++ sanitizeText text⟩]⟩], ⟨[⟨systemPrompt⟩]⟩, ⟨0.2⟩⟩ :=
  rfl

/-- C8: for a non-empty target language the translate instruction contains
the parameter verbatim and the literal phrase `"only the translated text"`,
and the custom-prompt handler passes the caller-supplied parameter through as
the instruction with no wrapping. -/
theorem claim_C8 (lang customPrompt s apiKey : String)
    (fetch : Nat → FetchOutcome) (_hlang : lang ≠ "") :
    (∃ a b, translateTemplate lang = a ++ lang ++ b) ∧
    (∃ a b, translateTemplate lang = a ++ "only the translated text" ++ b) ∧
    (handleRunTranslation s lang apiKey fetch).payload.systemInstruction
      = ⟨[⟨translateTemplate lang⟩]⟩ ∧
    (handleRunCustomPrompt s customPrompt apiKey fetch).payload.systemInstruction
      = ⟨[⟨customPrompt⟩]⟩ := by
  refine ⟨⟨"You are an expert translator. Translate the following text strictly into ",
      " and provide only the translated text as the output.", rfl⟩,
    ⟨"You are an expert translator. Translate the following text strictly into " ++
        lang ++ " and provide ",
      " as the output.", ?_⟩, rfl, rfl⟩
  simp only [translateTemplate, String.append_assoc]
  rfl

/-- Witness for C8 at the concrete target language `"French"`. -/
theorem claim_C8_witness :
    (handleRunTranslation "Bonjour" "French" "k" alwaysThrowFetch).payload.systemInstruction
      = ⟨[⟨translateTemplate "French"⟩]⟩ :=
  (claim_C8 "French" "p" "Bonjour" "k" alwaysThrowFetch (by decide)).2.2.1

/-- C9 counterexample: sanitization is not per-line — the match begun by `<`
crosses the newline in `"a<b\n>c"`, giving `"ac"`, whereas the claimed
per-line removal would give `"a\n>c"`. -/
theorem claim_C9_counterexample :
    sanitizeText "a<b\n>c" = "ac" ∧
    sanitizeLinewiseClaimed "a<b\n>c" = "a\n>c" ∧
    sanitizeText "a<b\n>c" ≠ sanitizeLinewiseClaimed "a<b\n>c" := by
  refine ⟨by decide, ?_, ?_⟩ <;> decide

/-- C9 amended: sanitization removes every match of `<` followed by a run of
non-`>` characters — a run that may cross line breaks — followed by an
optional `>`; when no `>` follows, everything from the `<` to the end of the
string is deleted, so inner text is not preserved for non-tag uses of `<`:
in particular `"1 < 2"` becomes `"1 "`. -/
theorem claim_C9_amended (pre post : List Char)
    (hpre : '<' ∉ pre) (hpost : '>' ∉ post) :
    sanitizeText ⟨pre ++ '<' :: post⟩ = ⟨pre⟩ ∧
    sanitizeText "1 < 2" = "1 " := by
  constructor
  · show String.mk (sanitizeAux false (pre ++ '<' :: post)) = ⟨pre⟩
    rw [sanitizeAux_false_append pre ('<' :: post) hpre]
    simp [sanitizeAux, sanitizeAux_true_no_gt post hpost]
  · decide

/-- Witness for C9 amended with `pre = "1 "` and `post = " 2"`. -/
theorem claim_C9_witness :
    sanitizeText ⟨['1', ' '] ++ '<' :: [' ', '2']⟩ = ⟨['1', ' ']⟩ :=
  (claim_C9_amended ['1', ' '] [' ', '2'] (by decide) (by decide)).1

/-- C1 counterexample: with an empty credential, the `runTranslation` message
path still drives the invoker through three network attempts (the URL simply
carries an empty `key=`), and the outcome is the propagated network error —
there is no `MissingCredential` result and no zero-call guarantee, so the
Remote Invoker enforces no credential guard. -/
theorem claim_C1_counterexample :
    (handleRunTranslation "Bonjour" "French" "" alwaysThrowFetch).attempts = 3 ∧
    (handleRunTranslation "Bonjour" "French" "" alwaysThrowFetch).outcome
      = .failure (.thrown "network down") ∧
    (handleRunTranslation "Bonjour" "French" "" alwaysThrowFetch).url
      = "https://generativelanguage.googleapis.com/v1beta/models/gemini-2.5-flash-preview-05-20:generateContent?key=" :=
  ⟨rfl, rfl, rfl⟩

/-- C1 amended: the empty-credential guard lives only in the context-menu
click handler, which answers `Configuration Required` and runs no task (zero
network calls); the Remote Invoker itself performs no credential check, and
the message-driven Translate and CustomPrompt paths call it with an empty
credential and issue at least one network attempt. -/
theorem claim_C1_amended (menuItemId selectedText s lang customPrompt : String)
    (fetch : Nat → FetchOutcome)
    (hsel : selectedText ≠ "") (hkey : menuItemId ≠ ACTION_SET_API_KEY)
    (hgrp : menuItemId ≠ "AI_TASKS_GROUP") :
    onContextMenuClicked menuItemId selectedText "" fetch = .configRequired ∧
    1 ≤ (handleRunTranslation s lang "" fetch).attempts ∧
    1 ≤ (handleRunCustomPrompt s customPrompt "" fetch).attempts := by
  refine ⟨?_, execLoopAux_attempts_pos fetch, execLoopAux_attempts_pos fetch⟩
  simp [onContextMenuClicked, hsel, hkey, hgrp]

/-- Witness for C1 amended at a concrete Summarize click and concrete
Translate/CustomPrompt messages. -/
theorem claim_C1_witness :
    onContextMenuClicked SUBMENU_SUMMARIZE_ID "hello" "" alwaysThrowFetch
      = .configRequired ∧
    1 ≤ (handleRunTranslation "Bonjour" "French" "" alwaysThrowFetch).attempts ∧
    1 ≤ (handleRunCustomPrompt "Bonjour" "shorten this" "" alwaysThrowFetch).attempts :=
  claim_C1_amended SUBMENU_SUMMARIZE_ID "hello" "Bonjour" "French" "shorten this"
    alwaysThrowFetch (by decide) (by decide) (by decide)

/-- C3 counterexample: a `runTranslation` message with the empty target
language is not rejected — the handler issues a network call (one attempt
here) and returns the model's text as a success, not `Failure(EmptyParameter)`. -/
theorem claim_C3_counterexample :
    (handleRunTranslation "Bonjour" "" "key123" okFetch).attempts = 1 ∧
    (handleRunTranslation "Bonjour" "" "key123" okFetch).outcome = .success "out" :=
  ⟨rfl, rfl⟩

/-- C3 amended: empty parameters are rejected only by the page-injected
modals, whose submit handlers send no message when the trimmed input is
empty; the background router performs no empty-parameter check, so a
`runTranslation` message with an empty language still issues at least one
network attempt, with the empty string interpolated into the instruction,
and a `runCustomPrompt` message with an empty prompt likewise issues at
least one network attempt, with the empty string as the instruction. -/
theorem claim_C3_amended (s apiKey : String) (fetch : Nat → FetchOutcome) :
    translationModalSubmit "" = none ∧
    translationModalSubmit "   " = none ∧
    promptModalSubmit "" = none ∧
    1 ≤ (handleRunTranslation s "" apiKey fetch).attempts ∧
    (handleRunTranslation s "" apiKey fetch).payload.systemInstruction
      = ⟨[⟨translateTemplate ""⟩]⟩ ∧
    1 ≤ (handleRunCustomPrompt s "" apiKey fetch).attempts ∧
    (handleRunCustomPrompt s "" apiKey fetch).payload.systemInstruction
      = ⟨[⟨""⟩]⟩ :=
  ⟨by decide, by decide, by decide, execLoopAux_attempts_pos fetch, rfl,
    execLoopAux_attempts_pos fetch, rfl⟩

/-- C2: every invocation issues at most 3 fetch attempts; when all 3 fail the
invocation propagates the 3rd attempt's error after exactly 3 attempts with
backoff delays of 1000 ms and 2000 ms and no 4th attempt; when the first two
fail and the 3rd succeeds it returns that success after exactly 3 attempts
with the same two delays. -/
theorem claim_C2 (text systemPrompt apiKey : String) (fetch : Nat → FetchOutcome) :
    (executeCloudAiTask text systemPrompt apiKey fetch).attempts ≤ 3 ∧
    (∀ e0 e1 e2,
      processAttempt (fetch 0) = .error e0 →
      processAttempt (fetch 1) = .error e1 →
      processAttempt (fetch 2) = .error e2 →
      (executeCloudAiTask text systemPrompt apiKey fetch).outcome = .failure e2 ∧
      (executeCloudAiTask text systemPrompt apiKey fetch).attempts = 3 ∧
      (executeCloudAiTask text systemPrompt apiKey fetch).delays = [1000, 2000]) ∧
    (∀ e0 e1 t,
      processAttempt (fetch 0) = .error e0 →
      processAttempt (fetch 1) = .error e1 →
      processAttempt (fetch 2) = .ok t →
      (executeCloudAiTask text systemPrompt apiKey fetch).outcome = .success t ∧
      (executeCloudAiTask text systemPrompt apiKey fetch).attempts = 3 ∧
      (executeCloudAiTask text systemPrompt apiKey fetch).delays = [1000, 2000]) := by
  refine ⟨?_, ?_, ?_⟩
  · show (execLoopAux fetch 0 3).attempts ≤ 3
    cases h0 : processAttempt (fetch 0) with
    | ok t => simp [execLoopAux, h0]
    | error e0 =>
        cases h1 : processAttempt (fetch 1) with
        | ok t => simp [execLoopAux, h0, h1]
        | error e1 =>
            cases h2 : processAttempt (fetch 2) with
            | ok t => simp [execLoopAux, h0, h1, h2]
            | error e2 => simp [execLoopAux, h0, h1, h2]
  · intro e0 e1 e2 h0 h1 h2
    have : execLoopAux fetch 0 3 = ⟨.failure e2, 3, [1000, 2000]⟩ := by
      simp [execLoopAux, h0, h1, h2]
    exact ⟨congrArg LoopTrace.outcome this, congrArg LoopTrace.attempts this,
      congrArg LoopTrace.delays this⟩
  · intro e0 e1 t h0 h1 h2
    have : execLoopAux fetch 0 3 = ⟨.success t, 3, [1000, 2000]⟩ := by
      simp [execLoopAux, h0, h1, h2]
    exact ⟨congrArg LoopTrace.outcome this, congrArg LoopTrace.attempts this,
      congrArg LoopTrace.delays this⟩

/-- Witness for C2: with an oracle that rejects every fetch, the trace shows
exactly 3 attempts, delays 1000 ms and 2000 ms, and the final error. -/
theorem claim_C2_witness :
    (executeCloudAiTask "hi" "sys" "k" alwaysThrowFetch).outcome
      = .failure (.thrown "network down") ∧
    (executeCloudAiTask "hi" "sys" "k" alwaysThrowFetch).attempts = 3 ∧
    (executeCloudAiTask "hi" "sys" "k" alwaysThrowFetch).delays = [1000, 2000] :=
  (claim_C2 "hi" "sys" "k" alwaysThrowFetch).2.1 (.thrown "network down")
    (.thrown "network down") (.thrown "network down") rfl rfl rfl

/-- C4: an attempt succeeds with text `t` iff the response is 2xx and the
parsed body holds the non-empty `t` at `candidates[0].content.parts[0].text`;
a 2xx body without such a value is a malformed-response failure; the first
successful attempt ends the invocation (one attempt, no delays); and
malformed responses are retried under the same 3-attempt/backoff budget as
other failures. -/
theorem claim_C4 :
    (∀ (o : FetchOutcome) (t : String),
      processAttempt o = .ok t ↔
        ∃ status bodyText r, o = .response status bodyText (some r) ∧
          respOk status = true ∧ generatedTextOf r = some t ∧ t ≠ "") ∧
    (∀ status bodyText r, respOk status = true →
      generatedTextOf r = none ∨ generatedTextOf r = some "" →
      processAttempt (.response status bodyText (some r))
        = .error .malformedResponse) ∧
    (∀ text systemPrompt apiKey fetch t,
      processAttempt (fetch 0) = .ok t →
      (executeCloudAiTask text systemPrompt apiKey fetch).outcome = .success t ∧
      (executeCloudAiTask text systemPrompt apiKey fetch).attempts = 1 ∧
      (executeCloudAiTask text systemPrompt apiKey fetch).delays = []) ∧
    (∀ text systemPrompt apiKey fetch t,
      processAttempt (fetch 0) = .error .malformedResponse →
      processAttempt (fetch 1) = .error .malformedResponse →
      processAttempt (fetch 2) = .ok t →
      (executeCloudAiTask text systemPrompt apiKey fetch).outcome = .success t ∧
      (executeCloudAiTask text systemPrompt apiKey fetch).attempts = 3 ∧
      (executeCloudAiTask text systemPrompt apiKey fetch).delays = [1000, 2000]) := by
  refine ⟨processAttempt_ok_iff, ?_, ?_, ?_⟩
  · intro status bodyText r hok hg
    rcases hg with hg | hg <;> simp [processAttempt, hok, hg]
  · intro text systemPrompt apiKey fetch t h0
    have : execLoopAux fetch 0 3 = ⟨.success t, 1, []⟩ := by
      simp [execLoopAux, h0]
    exact ⟨congrArg LoopTrace.outcome this, congrArg LoopTrace.attempts this,
      congrArg LoopTrace.delays this⟩
  · intro text systemPrompt apiKey fetch t h0 h1 h2
    have : execLoopAux fetch 0 3 = ⟨.success t, 3, [1000, 2000]⟩ := by
      simp [execLoopAux, h0, h1, h2]
    exact ⟨congrArg LoopTrace.outcome this, congrArg LoopTrace.attempts this,
      congrArg LoopTrace.delays this⟩

/-- Witness for C4: two malformed 2xx responses are retried and the
well-formed 3rd attempt returns its text after 3 attempts. -/
theorem claim_C4_witness :
    (executeCloudAiTask "hi" "sys" "k" malformedTwiceThenOkFetch).outcome
      = .success "out" ∧
    (executeCloudAiTask "hi" "sys" "k" malformedTwiceThenOkFetch).attempts = 3 ∧
    (executeCloudAiTask "hi" "sys" "k" malformedTwiceThenOkFetch).delays
      = [1000, 2000] :=
  claim_C4.2.2.2 "hi" "sys" "k" malformedTwiceThenOkFetch "out" rfl rfl rfl

/-- C10: the retry loop never reaches the fall-through
`Maximum retry attempts reached.` path — every invocation either returns the
text of a successful attempt or propagates the error thrown on the 3rd
attempt. -/
theorem claim_C10 (text systemPrompt apiKey : String) (fetch : Nat → FetchOutcome) :
    (executeCloudAiTask text systemPrompt apiKey fetch).outcome
      ≠ .maxRetriesReached ∧
    ((∃ t, (executeCloudAiTask text systemPrompt apiKey fetch).outcome
        = .success t) ∨
     (∃ e, processAttempt (fetch 2) = .error e ∧
        (executeCloudAiTask text systemPrompt apiKey fetch).outcome
          = .failure e)) := by
  have hmain :
      (∃ t, (execLoopAux fetch 0 3).outcome = .success t) ∨
      (∃ e, processAttempt (fetch 2) = .error e ∧
        (execLoopAux fetch 0 3).outcome = .failure e) := by
    cases h0 : processAttempt (fetch 0) with
    | ok t => exact Or.inl ⟨t, by simp [execLoopAux, h0]⟩
    | error e0 =>
        cases h1 : processAttempt (fetch 1) with
        | ok t => exact Or.inl ⟨t, by simp [execLoopAux, h0, h1]⟩
        | error e1 =>
            cases h2 : processAttempt (fetch 2) with
            | ok t => exact Or.inl ⟨t, by simp [execLoopAux, h0, h1, h2]⟩
            | error e2 => exact Or.inr ⟨e2, rfl, by simp [execLoopAux, h0, h1, h2]⟩
  refine ⟨?_, hmain⟩
  show (execLoopAux fetch 0 3).outcome ≠ .maxRetriesReached
  rcases hmain with ⟨t, ht⟩ | ⟨e, _, he⟩
  · rw [ht]; simp
  · rw [he]; simp

end NanoNavigator

